import Mathlib

/-!
Verification of the Mode Coordinator of the Marich robot car
(big_main.py, robot_hardware.py).

The coordinator is shallowly embedded as pure functions over an explicit
state record.  Modelling conventions, stated once here:

* Calls scheduled onto the Tk main thread via root.after(...) are modelled
  as executing synchronously as part of the operation that schedules them
  (atomic-transition semantics for each coordinator entry point).
* Fallible collaborator calls (CameraMaster construction, detector start
  calls, asset-file existence checks, worker-thread joins) are resolved by
  an explicit environment record of booleans passed to each operation.
* Console prints are not part of the state; the branch that prints a
  refusal diagnostic is the same branch that returns the state unchanged,
  and that branch structure is mirrored faithfully.
* GUI-internal behaviour of the face app (an excluded collaborator) is
  abstracted to the flags the coordinator reads or sets: visibility,
  current emotion, animation-loop flag.
* Thread handles and stop events are modelled by booleans recording
  whether the reference is non-null.
-/

namespace Marich

/-- The values of big_main's active_mode field other than None:
'color','face','gesture','object','plate','rps','presentation'. -/
inductive Mode where
  | color
  | face
  | gesture
  | object
  | plate
  | rps
  | presentation
deriving DecidableEq

/-- One worker record (chatbot / RPS game / presentation sequence):
thread = the task reference is non-null, stopEvent = the stop-event
reference is non-null, started = the _xxx_started flag. -/
structure WorkerRec where
  thread : Bool
  stopEvent : Bool
  started : Bool
deriving DecidableEq

/-- The camera detectors living inside a CameraMaster object, plus
whether release_all has been called on it. -/
structure CamState where
  colorTracking : Bool
  faceTracking : Bool
  gestureFollowing : Bool
  objectRec : Bool
  plateRec : Bool
  released : Bool
deriving DecidableEq

/-- The coordinator state of BigMainApp (big_main.py, __init__). -/
@[ext]
structure AppState where
  active_mode : Option Mode
  active_color : Option String
  ai_enabled : Bool
  chatbot : WorkerRec
  rpsGame : WorkerRec
  presentation : WorkerRec
  camera : Option CamState
  camera_initialized : Bool
  camera_shutting_down : Bool
  animations_started : Bool
  face_visible : Bool
  face_emotion : String
  led : Option Nat
  motors_on : Bool
  ir_enabled : Bool
  stop_flag : Bool
  gui_destroyed : Bool
deriving DecidableEq

/-- Resolution of the fallible external calls an operation may make. -/
structure Env where
  camOk : Bool
  detOk : Bool
  modelFileOk : Bool
  labelFileOk : Bool
  joinOk : Bool
deriving DecidableEq

/-- A freshly constructed CameraMaster: no detector running. -/
def freshCam : CamState :=
  { colorTracking := false, faceTracking := false, gestureFollowing := false
    objectRec := false, plateRec := false, released := false }

/-- State right after BigMainApp.__init__ (idle, AI off, no camera,
face suspended, IR receiver enabled). -/
def initState : AppState :=
  { active_mode := none, active_color := none, ai_enabled := false
    chatbot := ⟨false, false, false⟩
    rpsGame := ⟨false, false, false⟩
    presentation := ⟨false, false, false⟩
    camera := none, camera_initialized := false, camera_shutting_down := false
    animations_started := false, face_visible := false
    face_emotion := "neutral", led := none, motors_on := false
    ir_enabled := true, stop_flag := false, gui_destroyed := false }

/-- _start_chatbot_if_needed: spawn the chatbot worker when AI is on and
it is not already started (the suppress_greeting argument does not affect
coordinator state). -/
def startChatbotIfNeeded (s : AppState) : AppState :=
  if s.ai_enabled && !s.chatbot.started then
    { s with chatbot := ⟨true, true, true⟩ }
  else s

/-- _stop_chatbot_if_running.  The joinOk argument records whether the
bounded 2-second join succeeded; the source clears its bookkeeping
unconditionally after the join, so the result does not depend on it. -/
def stopChatbotIfRunning (joinOk : Bool) (s : AppState) : AppState :=
  if s.chatbot.started && s.chatbot.stopEvent then
    { s with chatbot := ⟨false, false, false⟩ }
  else s

/-- _stop_rps_if_running: clear the RPS worker record, and reset
active_mode when it was 'rps' or 'gesture'. -/
def stopRpsIfRunning (joinOk : Bool) (s : AppState) : AppState :=
  if s.rpsGame.started && s.rpsGame.stopEvent then
    { s with rpsGame := ⟨false, false, false⟩
             active_mode :=
               if s.active_mode = some Mode.rps ∨ s.active_mode = some Mode.gesture
               then none else s.active_mode }
  else s

/-- _stop_presentation_if_running. -/
def stopPresentationIfRunning (joinOk : Bool) (s : AppState) : AppState :=
  if s.presentation.started && s.presentation.stopEvent then
    { s with presentation := ⟨false, false, false⟩
             active_mode :=
               if s.active_mode = some Mode.presentation
               then none else s.active_mode }
  else s

/-- _ensure_camera: lazily construct the CameraMaster; on construction
failure reset camera to None and the initialized flag to False.  Returns
the updated state and the boolean result (camera is not None). -/
def ensureCamera (e : Env) (s : AppState) : AppState × Bool :=
  if !s.camera_initialized then
    if e.camOk then
      ({ s with camera := some freshCam, camera_initialized := true }, true)
    else
      ({ s with camera := none, camera_initialized := false }, false)
  else (s, s.camera.isSome)

/-- _ensure_animations (start_animation_loops on the face app is an
excluded collaborator; it is modelled as succeeding). -/
def ensureAnimations (s : AppState) : AppState :=
  if !s.animations_started then { s with animations_started := true } else s

/-- The five stop_xxx detector calls issued on a CameraMaster. -/
def stopAllDetectors (c : CamState) : CamState :=
  { c with colorTracking := false, faceTracking := false
           gestureFollowing := false, objectRec := false, plateRec := false }

/-- _stop_all_camera_modes: stop RPS and presentation workers, stop every
camera detector (when a camera exists), clear active_mode/active_color,
stop motors, turn LEDs off, restore a neutral emotion when AI is on,
otherwise hide the face. -/
def stopAllCameraModes (s : AppState) : AppState :=
  let s1 := if s.rpsGame.started then stopRpsIfRunning true s else s
  let s2 := if s1.presentation.started then stopPresentationIfRunning true s1 else s1
  let s3 :=
    match s2.camera with
    | some c => { s2 with camera := some (stopAllDetectors c) }
    | none => s2
  let s4 := { s3 with active_mode := none, active_color := none
                      motors_on := false, led := none }
  let s5 := if s4.ai_enabled then { s4 with face_emotion := "neutral" } else s4
  if !s5.ai_enabled then { s5 with face_visible := false } else s5

/-- _start_ai_components (state-relevant effects only: the memory and
swap housekeeping touches no coordinator state): start the chatbot
worker, start animations, show the face, set a happy emotion, and set the
LEDs via set_emotion_led('happy') which is colour index 1 (green). -/
def startAiComponents (s : AppState) : AppState :=
  let s1 := startChatbotIfNeeded s
  let s2 := ensureAnimations s1
  { s2 with face_visible := true, face_emotion := "happy", led := some 1 }

/-- _release_camera_completely: stop workers, tear down every detector and
the camera device itself, reset all camera bookkeeping and the active
mode, stop motors, LEDs off; when AI is enabled, chain into
_start_ai_components. -/
def releaseCameraCompletely (e : Env) (s : AppState) : AppState :=
  let s1 := if s.rpsGame.started then stopRpsIfRunning e.joinOk s else s
  let s2 := if s1.presentation.started then stopPresentationIfRunning e.joinOk s1 else s1
  let s3 := { s2 with camera_shutting_down := true }
  let s4 :=
    match s3.camera with
    | some c => { s3 with camera := some { stopAllDetectors c with released := true } }
    | none => s3
  let s5 := { s4 with camera := none, camera_initialized := false
                      active_mode := none, active_color := none
                      camera_shutting_down := false
                      motors_on := false, led := none }
  let s6 := if s5.ai_enabled then { s5 with face_emotion := "neutral" } else s5
  if s6.ai_enabled then startAiComponents s6 else s6

/-- _toggle_ai.  The camera release that the source schedules with
root.after(10, ...) is modelled as running synchronously. -/
def toggleAi (e : Env) (s : AppState) : AppState :=
  let s0 := { s with ai_enabled := !s.ai_enabled }
  if s0.ai_enabled then
    let s1 := if s0.rpsGame.started then stopRpsIfRunning e.joinOk s0 else s0
    let s2 := if s1.presentation.started then stopPresentationIfRunning e.joinOk s1 else s1
    if s2.camera.isSome || s2.camera_initialized then
      releaseCameraCompletely e s2
    else
      startAiComponents s2
  else
    let s1 := stopChatbotIfRunning e.joinOk s0
    { s1 with face_visible := false, face_emotion := "neutral", led := none }

/-- The LED colour index chosen by _start_color_mode
(Red:0, Green:1, Blue:2, Yellow:3, default White:6). -/
def colorLedIndex (c : String) : Nat :=
  let lc := c.toLower
  if lc = "red" then 0
  else if lc = "green" then 1
  else if lc = "blue" then 2
  else if lc = "yellow" then 3
  else 6

/-- _start_color_mode.  The try block (detector start, state update,
emotion, LED) is entered only past the assert that the camera is
non-null; a failing camera call (detOk = false) leaves the post-ensure
state untouched. -/
def startColorMode (c : String) (e : Env) (s : AppState) : AppState :=
  if s.ai_enabled || s.presentation.started then s
  else if s.active_mode ≠ some Mode.color ∨ s.active_color ≠ some c then
    let s1 := stopAllCameraModes s
    let s2 := (ensureCamera e s1).1
    if !(ensureCamera e s1).2 then s2
    else if e.detOk then
      match s2.camera with
      | some cam =>
        let s3 := { s2 with camera := some { cam with colorTracking := true }
                            active_mode := some Mode.color
                            active_color := some c }
        let s4 := if s3.ai_enabled then { s3 with face_emotion := "happy" } else s3
        { s4 with led := some (colorLedIndex c) }
      | none => s2
    else s2
  else s

/-- _start_face_mode (set_emotion_led('happy') is colour index 1). -/
def startFaceMode (e : Env) (s : AppState) : AppState :=
  if s.ai_enabled || s.presentation.started then s
  else if s.active_mode ≠ some Mode.face then
    let s1 := stopAllCameraModes s
    let s2 := (ensureCamera e s1).1
    if !(ensureCamera e s1).2 then s2
    else if e.detOk then
      match s2.camera with
      | some cam =>
        let s3 := { s2 with camera := some { cam with faceTracking := true }
                            active_mode := some Mode.face }
        let s4 := if s3.ai_enabled then { s3 with face_emotion := "happy" } else s3
        { s4 with led := some 1 }
      | none => s2
    else s2
  else s

/-- _start_gesture_mode (set_emotion_led('happy') is colour index 1). -/
def startGestureMode (e : Env) (s : AppState) : AppState :=
  if s.ai_enabled || s.presentation.started then s
  else if s.active_mode ≠ some Mode.gesture then
    let s1 := stopAllCameraModes s
    let s2 := (ensureCamera e s1).1
    if !(ensureCamera e s1).2 then s2
    else if e.detOk then
      match s2.camera with
      | some cam =>
        let s3 := { s2 with camera := some { cam with gestureFollowing := true }
                            active_mode := some Mode.gesture }
        let s4 := if s3.ai_enabled then { s3 with face_emotion := "happy" } else s3
        { s4 with led := some 1 }
      | none => s2
    else s2
  else s

/-- _start_object_mode: additionally requires the model and label-map
asset files to exist (set_emotion_led('neutral') is colour index 2). -/
def startObjectMode (e : Env) (s : AppState) : AppState :=
  if s.ai_enabled || s.presentation.started then s
  else if s.active_mode ≠ some Mode.object then
    let s1 := stopAllCameraModes s
    let s2 := (ensureCamera e s1).1
    if !(ensureCamera e s1).2 then s2
    else if !(e.modelFileOk && e.labelFileOk) then s2
    else if e.detOk then
      match s2.camera with
      | some cam =>
        let s3 := { s2 with camera := some { cam with objectRec := true }
                            active_mode := some Mode.object }
        let s4 := if s3.ai_enabled then { s3 with face_emotion := "neutral" } else s3
        { s4 with led := some 2 }
      | none => s2
    else s2
  else s

/-- _start_plate_mode (set_emotion_led('neutral') is colour index 2). -/
def startPlateMode (e : Env) (s : AppState) : AppState :=
  if s.ai_enabled || s.presentation.started then s
  else if s.active_mode ≠ some Mode.plate then
    let s1 := stopAllCameraModes s
    let s2 := (ensureCamera e s1).1
    if !(ensureCamera e s1).2 then s2
    else if e.detOk then
      match s2.camera with
      | some cam =>
        let s3 := { s2 with camera := some { cam with plateRec := true }
                            active_mode := some Mode.plate }
        let s4 := if s3.ai_enabled then { s3 with face_emotion := "neutral" } else s3
        { s4 with led := some 2 }
      | none => s2
    else s2
  else s

/-- _start_rps_if_needed: refuse under AI or presentation; stop other
modes; acquire the camera; start gesture following for detection inside a
try whose failure (detOk = false, or a null camera at the assert) only
prints a warning and continues; start animations and show the face; spawn
the RPS worker and set active_mode to 'rps'. -/
def startRpsIfNeeded (e : Env) (s : AppState) : AppState :=
  if s.ai_enabled || s.presentation.started then s
  else if !s.rpsGame.started then
    let s1 := stopAllCameraModes s
    let s2 := (ensureCamera e s1).1
    if !(ensureCamera e s1).2 then s2
    else
      let s3 :=
        if e.detOk then
          match s2.camera with
          | some cam =>
            { s2 with camera := some { cam with gestureFollowing := true }
                      active_mode := some Mode.gesture }
          | none => s2
        else s2
      let s4 := ensureAnimations s3
      { s4 with face_visible := true, rpsGame := ⟨true, true, true⟩
                active_mode := some Mode.rps }
  else s

/-- _start_presentation_mode: refuse under AI or RPS, refuse when already
running; otherwise stop camera modes, show the animated face, spawn the
worker, and set active_mode to 'presentation'. -/
def startPresentationMode (e : Env) (s : AppState) : AppState :=
  if s.ai_enabled || s.rpsGame.started then s
  else if s.presentation.started then s
  else
    let s1 := stopAllCameraModes s
    let s2 := ensureAnimations s1
    let s3 := { s2 with face_visible := true }
    { s3 with presentation := ⟨true, true, true⟩
              active_mode := some Mode.presentation }

/-- shutdown: early return when the stop flag is already set; otherwise
set it, disable the IR receiver, stop every worker and camera mode,
release the camera device, stop motors, LEDs off, and schedule GUI
destruction (modelled synchronously). -/
def shutdownApp (e : Env) (s : AppState) : AppState :=
  if s.stop_flag then s
  else
    let s1 := { s with stop_flag := true, ir_enabled := false }
    let s2 := stopChatbotIfRunning e.joinOk s1
    let s3 := stopPresentationIfRunning e.joinOk s2
    let s4 := stopRpsIfRunning e.joinOk s3
    let s5 := stopAllCameraModes s4
    let s6 :=
      match s5.camera with
      | some c => { s5 with camera := some { c with released := true } }
      | none => s5
    { s6 with motors_on := false, led := none, gui_destroyed := true }

/-- The coordinator entry points reachable from the IR dispatcher. -/
inductive Op where
  | startColor (c : String)
  | startFace
  | startGesture
  | startObject
  | startPlate
  | startRps
  | startPres
  | toggleAiOp
  | stopAllOp
  | releaseCameraOp
  | exitApp
deriving DecidableEq

/-- The seven mode-request operations of claim C1/C3. -/
def isModeRequest : Op → Bool
  | .startColor _ => true
  | .startFace => true
  | .startGesture => true
  | .startObject => true
  | .startPlate => true
  | .startRps => true
  | .startPres => true
  | _ => false

/-- One coordinator transition. -/
def step : Op → Env → AppState → AppState
  | .startColor c, e, s => startColorMode c e s
  | .startFace, e, s => startFaceMode e s
  | .startGesture, e, s => startGestureMode e s
  | .startObject, e, s => startObjectMode e s
  | .startPlate, e, s => startPlateMode e s
  | .startRps, e, s => startRpsIfNeeded e s
  | .startPres, e, s => startPresentationMode e s
  | .toggleAiOp, e, s => toggleAi e s
  | .stopAllOp, _, s => stopAllCameraModes s
  | .releaseCameraOp, e, s => releaseCameraCompletely e s
  | .exitApp, e, s => shutdownApp e s

/-- Run a sequence of operations from a state. -/
def run (s : AppState) : List (Op × Env) → AppState
  | [] => s
  | (o, e) :: rest => run (step o e s) rest

/-! IR remote layer (CONFIG SECTION of big_main.py, _ir_loop,
_handle_ir_code, and robot_hardware.trigger_beep). -/

def IR_COLOR_RED : Nat := 0x01
def IR_COLOR_BLUE : Nat := 0x04
def IR_COLOR_GREEN : Nat := 0x06
def IR_COLOR_YELLOW : Nat := 0x09
def IR_FACE_MODE : Nat := 0x10
def IR_GESTURE_MODE : Nat := 0x11
def IR_OBJECT_MODE : Nat := 0x12
def IR_PLATE_MODE : Nat := 0x14
def IR_RPS_GAME : Nat := 0x19
def IR_PRESENTATION : Nat := 0x15
def IR_AI_TOGGLE : Nat := 0x02
def IR_STOP_ALL : Nat := 0x05
def IR_EXIT_APP : Nat := 0x00

/-- IR_DEBOUNCE_SEC = 0.4 seconds. -/
def IR_DEBOUNCE_SEC : ℚ := 2 / 5

/-- Debounce state of the IR poll loop
(_last_ir_code, _last_ir_time). -/
structure IrState where
  lastCode : Nat
  lastTime : ℚ
deriving DecidableEq

/-- One iteration of the _ir_loop body for a register read yielding a
code at a given time: the sentinel 0 and values ≥ 0xFF are ignored; with
the debug bypass off, a repeat of the last code strictly inside the
debounce window is dropped without touching the debounce state; any other
accepted code updates the debounce state and is dispatched.  Returns the
new debounce state and whether _handle_ir_code was invoked. -/
def irPollStep (debug : Bool) (st : IrState) (code : Nat) (now : ℚ) :
    IrState × Bool :=
  if code ≠ 0 ∧ code < 0xFF then
    if !debug ∧ code = st.lastCode ∧ now - st.lastTime < IR_DEBOUNCE_SEC then
      (st, false)
    else (⟨code, now⟩, true)
  else (st, false)

/-- The action selected by the if/elif chain of _handle_ir_code. -/
inductive IrAction where
  | colorMode (c : String)
  | faceMode
  | gestureMode
  | objectMode
  | plateMode
  | rpsGameMode
  | presentationMode
  | aiToggle
  | stopAllRelease
  | exitApplication
  | unmapped
deriving DecidableEq

/-- The code-to-action lookup of _handle_ir_code, in source order. -/
def irActionOf (code : Nat) : IrAction :=
  if code = IR_COLOR_RED then .colorMode "red"
  else if code = IR_COLOR_BLUE then .colorMode "blue"
  else if code = IR_COLOR_GREEN then .colorMode "green"
  else if code = IR_COLOR_YELLOW then .colorMode "yellow"
  else if code = IR_FACE_MODE then .faceMode
  else if code = IR_GESTURE_MODE then .gestureMode
  else if code = IR_OBJECT_MODE then .objectMode
  else if code = IR_PLATE_MODE then .plateMode
  else if code = IR_RPS_GAME then .rpsGameMode
  else if code = IR_PRESENTATION then .presentationMode
  else if code = IR_AI_TOGGLE then .aiToggle
  else if code = IR_STOP_ALL then .stopAllRelease
  else if code = IR_EXIT_APP then .exitApplication
  else .unmapped

/-- Observable outcome of one _handle_ir_code call: the selected action,
whether the unmapped-code diagnostic was printed (only in the final else
branch and only when IR_DEBUG is set), and whether trigger_beep ran.  In
the source trigger_beep() stands after the whole if/elif/else chain at
function level, so it runs for every code. -/
structure IrDispatchResult where
  act : IrAction
  loggedUnmapped : Bool
  beepTriggered : Bool
deriving DecidableEq

/-- _handle_ir_code, as observed through IrDispatchResult. -/
def handleIrCode (debug : Bool) (code : Nat) : IrDispatchResult :=
  let a := irActionOf code
  { act := a
    loggedUnmapped := if a = IrAction.unmapped then debug else false
    beepTriggered := true }

/-! Observations and invariants used by the claims. -/

/-- Whether a given mode is the active one. -/
def modeActive (s : AppState) (m : Mode) : Bool :=
  s.active_mode = some m

/-- All detectors of the camera (if any) are stopped. -/
def camDetectorsOff (s : AppState) : Bool :=
  match s.camera with
  | none => true
  | some c =>
    !c.colorTracking && !c.faceTracking && !c.gestureFollowing
      && !c.objectRec && !c.plateRec

/-- Worker-record invariant of claim C9: the started flag is set exactly
when the task reference is non-null. -/
def wInv (w : WorkerRec) : Prop := w.started = true ↔ w.thread = true

/-- The worker-record invariant for all three workers. -/
def wInvAll (s : AppState) : Prop :=
  wInv s.chatbot ∧ wInv s.rpsGame ∧ wInv s.presentation

/-- Inductive coordinator invariant: no mode is active while AI is
enabled; any active mode other than the presentation requires an
initialized camera; an active presentation mode has a started
presentation worker; and the presentation worker's stop event exists
whenever its started flag is set. -/
def Inv (s : AppState) : Prop :=
  (s.ai_enabled = true → s.active_mode = none)
  ∧ (∀ m : Mode, s.active_mode = some m → m ≠ Mode.presentation →
      s.camera_initialized = true)
  ∧ (s.active_mode = some Mode.presentation → s.presentation.started = true)
  ∧ (s.presentation.started = true → s.presentation.stopEvent = true)

/-- A concrete environment where every external call succeeds. -/
def envOk : Env :=
  { camOk := true, detOk := true, modelFileOk := true, labelFileOk := true
    joinOk := true }

/-- A concrete environment where camera construction fails. -/
def envNoCam : Env :=
  { camOk := false, detOk := true, modelFileOk := true, labelFileOk := true
    joinOk := true }

/-- A concrete state in red colour-tracking mode (used in witnesses). -/
def stColorRed : AppState :=
  { initState with active_mode := some Mode.color, active_color := some "red" }

/-- A concrete state in face-tracking mode (used in witnesses). -/
def stFaceOn : AppState :=
  { initState with active_mode := some Mode.face }

/-- A concrete state with AI enabled (used in witnesses). -/
def stAiOn : AppState :=
  { initState with ai_enabled := true }

/-- A concrete state with all three workers running (used in witnesses). -/
def stWorkersOn : AppState :=
  { initState with chatbot := ⟨true, true, true⟩
                   rpsGame := ⟨true, true, true⟩
                   presentation := ⟨true, true, true⟩ }

/-- A concrete state whose global stop flag is set (used in witnesses). -/
def stStopSet : AppState :=
  { initState with stop_flag := true }

/-! Helper lemmas: field-level characterizations of the operations. -/

@[simp] theorem stopAllDetectors_idem (c : CamState) :
    stopAllDetectors (stopAllDetectors c) = stopAllDetectors c := rfl

@[simp] theorem stopChatbot_chatbot (j : Bool) (s : AppState) :
    (stopChatbotIfRunning j s).chatbot
      = if s.chatbot.started && s.chatbot.stopEvent then ⟨false, false, false⟩
        else s.chatbot := by
  unfold stopChatbotIfRunning; split <;> simp_all

@[simp] theorem stopChatbot_rest (j : Bool) (s : AppState) :
    (stopChatbotIfRunning j s).active_mode = s.active_mode
    ∧ (stopChatbotIfRunning j s).active_color = s.active_color
    ∧ (stopChatbotIfRunning j s).ai_enabled = s.ai_enabled
    ∧ (stopChatbotIfRunning j s).rpsGame = s.rpsGame
    ∧ (stopChatbotIfRunning j s).presentation = s.presentation
    ∧ (stopChatbotIfRunning j s).camera = s.camera
    ∧ (stopChatbotIfRunning j s).camera_initialized = s.camera_initialized
    ∧ (stopChatbotIfRunning j s).camera_shutting_down = s.camera_shutting_down
    ∧ (stopChatbotIfRunning j s).animations_started = s.animations_started
    ∧ (stopChatbotIfRunning j s).face_visible = s.face_visible
    ∧ (stopChatbotIfRunning j s).face_emotion = s.face_emotion
    ∧ (stopChatbotIfRunning j s).led = s.led
    ∧ (stopChatbotIfRunning j s).motors_on = s.motors_on
    ∧ (stopChatbotIfRunning j s).ir_enabled = s.ir_enabled
    ∧ (stopChatbotIfRunning j s).stop_flag = s.stop_flag
    ∧ (stopChatbotIfRunning j s).gui_destroyed = s.gui_destroyed := by
  unfold stopChatbotIfRunning; split <;> simp_all

@[simp] theorem stopRps_rpsGame (j : Bool) (s : AppState) :
    (stopRpsIfRunning j s).rpsGame
      = if s.rpsGame.started && s.rpsGame.stopEvent then ⟨false, false, false⟩
        else s.rpsGame := by
  unfold stopRpsIfRunning; split <;> simp_all

@[simp] theorem stopRps_active_mode (j : Bool) (s : AppState) :
    (stopRpsIfRunning j s).active_mode
      = if s.rpsGame.started && s.rpsGame.stopEvent then
          (if s.active_mode = some Mode.rps ∨ s.active_mode = some Mode.gesture
           then none else s.active_mode)
        else s.active_mode := by
  unfold stopRpsIfRunning; split <;> simp_all

@[simp] theorem stopRps_rest (j : Bool) (s : AppState) :
    (stopRpsIfRunning j s).active_color = s.active_color
    ∧ (stopRpsIfRunning j s).ai_enabled = s.ai_enabled
    ∧ (stopRpsIfRunning j s).chatbot = s.chatbot
    ∧ (stopRpsIfRunning j s).presentation = s.presentation
    ∧ (stopRpsIfRunning j s).camera = s.camera
    ∧ (stopRpsIfRunning j s).camera_initialized = s.camera_initialized
    ∧ (stopRpsIfRunning j s).camera_shutting_down = s.camera_shutting_down
    ∧ (stopRpsIfRunning j s).animations_started = s.animations_started
    ∧ (stopRpsIfRunning j s).face_visible = s.face_visible
    ∧ (stopRpsIfRunning j s).face_emotion = s.face_emotion
    ∧ (stopRpsIfRunning j s).led = s.led
    ∧ (stopRpsIfRunning j s).motors_on = s.motors_on
    ∧ (stopRpsIfRunning j s).ir_enabled = s.ir_enabled
    ∧ (stopRpsIfRunning j s).stop_flag = s.stop_flag
    ∧ (stopRpsIfRunning j s).gui_destroyed = s.gui_destroyed := by
  unfold stopRpsIfRunning; split <;> simp_all

@[simp] theorem stopPres_presentation (j : Bool) (s : AppState) :
    (stopPresentationIfRunning j s).presentation
      = if s.presentation.started && s.presentation.stopEvent then
          ⟨false, false, false⟩
        else s.presentation := by
  unfold stopPresentationIfRunning; split <;> simp_all

@[simp] theorem stopPres_active_mode (j : Bool) (s : AppState) :
    (stopPresentationIfRunning j s).active_mode
      = if s.presentation.started && s.presentation.stopEvent then
          (if s.active_mode = some Mode.presentation then none else s.active_mode)
        else s.active_mode := by
  unfold stopPresentationIfRunning; split <;> simp_all

@[simp] theorem stopPres_rest (j : Bool) (s : AppState) :
    (stopPresentationIfRunning j s).active_color = s.active_color
    ∧ (stopPresentationIfRunning j s).ai_enabled = s.ai_enabled
    ∧ (stopPresentationIfRunning j s).chatbot = s.chatbot
    ∧ (stopPresentationIfRunning j s).rpsGame = s.rpsGame
    ∧ (stopPresentationIfRunning j s).camera = s.camera
    ∧ (stopPresentationIfRunning j s).camera_initialized = s.camera_initialized
    ∧ (stopPresentationIfRunning j s).camera_shutting_down = s.camera_shutting_down
    ∧ (stopPresentationIfRunning j s).animations_started = s.animations_started
    ∧ (stopPresentationIfRunning j s).face_visible = s.face_visible
    ∧ (stopPresentationIfRunning j s).face_emotion = s.face_emotion
    ∧ (stopPresentationIfRunning j s).led = s.led
    ∧ (stopPresentationIfRunning j s).motors_on = s.motors_on
    ∧ (stopPresentationIfRunning j s).ir_enabled = s.ir_enabled
    ∧ (stopPresentationIfRunning j s).stop_flag = s.stop_flag
    ∧ (stopPresentationIfRunning j s).gui_destroyed = s.gui_destroyed := by
  unfold stopPresentationIfRunning; split <;> simp_all

@[simp] theorem startChatbot_chatbot (s : AppState) :
    (startChatbotIfNeeded s).chatbot
      = if s.ai_enabled && !s.chatbot.started then ⟨true, true, true⟩
        else s.chatbot := by
  unfold startChatbotIfNeeded; split <;> simp_all

@[simp] theorem startChatbot_rest (s : AppState) :
    (startChatbotIfNeeded s).active_mode = s.active_mode
    ∧ (startChatbotIfNeeded s).active_color = s.active_color
    ∧ (startChatbotIfNeeded s).ai_enabled = s.ai_enabled
    ∧ (startChatbotIfNeeded s).rpsGame = s.rpsGame
    ∧ (startChatbotIfNeeded s).presentation = s.presentation
    ∧ (startChatbotIfNeeded s).camera = s.camera
    ∧ (startChatbotIfNeeded s).camera_initialized = s.camera_initialized
    ∧ (startChatbotIfNeeded s).camera_shutting_down = s.camera_shutting_down
    ∧ (startChatbotIfNeeded s).animations_started = s.animations_started
    ∧ (startChatbotIfNeeded s).face_visible = s.face_visible
    ∧ (startChatbotIfNeeded s).face_emotion = s.face_emotion
    ∧ (startChatbotIfNeeded s).led = s.led
    ∧ (startChatbotIfNeeded s).motors_on = s.motors_on
    ∧ (startChatbotIfNeeded s).ir_enabled = s.ir_enabled
    ∧ (startChatbotIfNeeded s).stop_flag = s.stop_flag
    ∧ (startChatbotIfNeeded s).gui_destroyed = s.gui_destroyed := by
  unfold startChatbotIfNeeded; split <;> simp_all

@[simp] theorem ensureAnimations_animations (s : AppState) :
    (ensureAnimations s).animations_started = true := by
  unfold ensureAnimations; split <;> simp_all

@[simp] theorem ensureAnimations_rest (s : AppState) :
    (ensureAnimations s).active_mode = s.active_mode
    ∧ (ensureAnimations s).active_color = s.active_color
    ∧ (ensureAnimations s).ai_enabled = s.ai_enabled
    ∧ (ensureAnimations s).chatbot = s.chatbot
    ∧ (ensureAnimations s).rpsGame = s.rpsGame
    ∧ (ensureAnimations s).presentation = s.presentation
    ∧ (ensureAnimations s).camera = s.camera
    ∧ (ensureAnimations s).camera_initialized = s.camera_initialized
    ∧ (ensureAnimations s).camera_shutting_down = s.camera_shutting_down
    ∧ (ensureAnimations s).face_visible = s.face_visible
    ∧ (ensureAnimations s).face_emotion = s.face_emotion
    ∧ (ensureAnimations s).led = s.led
    ∧ (ensureAnimations s).motors_on = s.motors_on
    ∧ (ensureAnimations s).ir_enabled = s.ir_enabled
    ∧ (ensureAnimations s).stop_flag = s.stop_flag
    ∧ (ensureAnimations s).gui_destroyed = s.gui_destroyed := by
  unfold ensureAnimations; split <;> simp_all

theorem ensureCamera_snd (e : Env) (s : AppState) :
    (ensureCamera e s).2
      = if s.camera_initialized then s.camera.isSome else e.camOk := by
  unfold ensureCamera
  rcases hci : s.camera_initialized <;> rcases hco : e.camOk <;> simp_all

theorem ensureCamera_camera (e : Env) (s : AppState) :
    (ensureCamera e s).1.camera
      = if s.camera_initialized then s.camera
        else if e.camOk then some freshCam else none := by
  unfold ensureCamera
  rcases hci : s.camera_initialized <;> rcases hco : e.camOk <;> simp_all

theorem ensureCamera_caminit (e : Env) (s : AppState) :
    (ensureCamera e s).1.camera_initialized
      = (s.camera_initialized || e.camOk) := by
  unfold ensureCamera
  rcases hci : s.camera_initialized <;> rcases hco : e.camOk <;> simp_all

@[simp] theorem ensureCamera_rest (e : Env) (s : AppState) :
    (ensureCamera e s).1.active_mode = s.active_mode
    ∧ (ensureCamera e s).1.active_color = s.active_color
    ∧ (ensureCamera e s).1.ai_enabled = s.ai_enabled
    ∧ (ensureCamera e s).1.chatbot = s.chatbot
    ∧ (ensureCamera e s).1.rpsGame = s.rpsGame
    ∧ (ensureCamera e s).1.presentation = s.presentation
    ∧ (ensureCamera e s).1.camera_shutting_down = s.camera_shutting_down
    ∧ (ensureCamera e s).1.animations_started = s.animations_started
    ∧ (ensureCamera e s).1.face_visible = s.face_visible
    ∧ (ensureCamera e s).1.face_emotion = s.face_emotion
    ∧ (ensureCamera e s).1.led = s.led
    ∧ (ensureCamera e s).1.motors_on = s.motors_on
    ∧ (ensureCamera e s).1.ir_enabled = s.ir_enabled
    ∧ (ensureCamera e s).1.stop_flag = s.stop_flag
    ∧ (ensureCamera e s).1.gui_destroyed = s.gui_destroyed := by
  unfold ensureCamera
  rcases hci : s.camera_initialized <;> rcases hco : e.camOk <;> simp_all

@[simp] theorem startAi_fields (s : AppState) :
    (startAiComponents s).face_visible = true
    ∧ (startAiComponents s).face_emotion = "happy"
    ∧ (startAiComponents s).led = some 1
    ∧ (startAiComponents s).animations_started = true
    ∧ (startAiComponents s).chatbot
        = (if s.ai_enabled && !s.chatbot.started then ⟨true, true, true⟩
           else s.chatbot) := by
  unfold startAiComponents
  simp

@[simp] theorem startAi_rest (s : AppState) :
    (startAiComponents s).active_mode = s.active_mode
    ∧ (startAiComponents s).active_color = s.active_color
    ∧ (startAiComponents s).ai_enabled = s.ai_enabled
    ∧ (startAiComponents s).rpsGame = s.rpsGame
    ∧ (startAiComponents s).presentation = s.presentation
    ∧ (startAiComponents s).camera = s.camera
    ∧ (startAiComponents s).camera_initialized = s.camera_initialized
    ∧ (startAiComponents s).camera_shutting_down = s.camera_shutting_down
    ∧ (startAiComponents s).motors_on = s.motors_on
    ∧ (startAiComponents s).ir_enabled = s.ir_enabled
    ∧ (startAiComponents s).stop_flag = s.stop_flag
    ∧ (startAiComponents s).gui_destroyed = s.gui_destroyed := by
  unfold startAiComponents
  simp

@[simp] theorem stopAll_fields (s : AppState) :
    (stopAllCameraModes s).active_mode = none
    ∧ (stopAllCameraModes s).active_color = none
    ∧ (stopAllCameraModes s).led = none
    ∧ (stopAllCameraModes s).motors_on = false
    ∧ (stopAllCameraModes s).camera = s.camera.map stopAllDetectors
    ∧ (stopAllCameraModes s).ai_enabled = s.ai_enabled
    ∧ (stopAllCameraModes s).camera_initialized = s.camera_initialized
    ∧ (stopAllCameraModes s).camera_shutting_down = s.camera_shutting_down
    ∧ (stopAllCameraModes s).animations_started = s.animations_started
    ∧ (stopAllCameraModes s).chatbot = s.chatbot
    ∧ (stopAllCameraModes s).ir_enabled = s.ir_enabled
    ∧ (stopAllCameraModes s).stop_flag = s.stop_flag
    ∧ (stopAllCameraModes s).gui_destroyed = s.gui_destroyed
    ∧ (stopAllCameraModes s).rpsGame
        = (if s.rpsGame.started && s.rpsGame.stopEvent then ⟨false, false, false⟩
           else s.rpsGame)
    ∧ (stopAllCameraModes s).presentation
        = (if s.presentation.started && s.presentation.stopEvent then
             ⟨false, false, false⟩
           else s.presentation)
    ∧ (stopAllCameraModes s).face_emotion
        = (if s.ai_enabled then "neutral" else s.face_emotion)
    ∧ (stopAllCameraModes s).face_visible
        = (if s.ai_enabled then s.face_visible else false) := by
  unfold stopAllCameraModes
  cases h1 : s.rpsGame.started <;> cases h2 : s.rpsGame.stopEvent <;>
    cases h3 : s.presentation.started <;> cases h4 : s.presentation.stopEvent <;>
    cases ha : s.ai_enabled <;> cases hc : s.camera <;>
    simp_all

@[simp] theorem release_fields (e : Env) (s : AppState) :
    (releaseCameraCompletely e s).active_mode = none
    ∧ (releaseCameraCompletely e s).active_color = none
    ∧ (releaseCameraCompletely e s).camera = none
    ∧ (releaseCameraCompletely e s).camera_initialized = false
    ∧ (releaseCameraCompletely e s).camera_shutting_down = false
    ∧ (releaseCameraCompletely e s).motors_on = false
    ∧ (releaseCameraCompletely e s).ai_enabled = s.ai_enabled
    ∧ (releaseCameraCompletely e s).ir_enabled = s.ir_enabled
    ∧ (releaseCameraCompletely e s).stop_flag = s.stop_flag
    ∧ (releaseCameraCompletely e s).gui_destroyed = s.gui_destroyed
    ∧ (releaseCameraCompletely e s).rpsGame
        = (if s.rpsGame.started && s.rpsGame.stopEvent then ⟨false, false, false⟩
           else s.rpsGame)
    ∧ (releaseCameraCompletely e s).presentation
        = (if s.presentation.started && s.presentation.stopEvent then
             ⟨false, false, false⟩
           else s.presentation)
    ∧ (releaseCameraCompletely e s).chatbot
        = (if s.ai_enabled && !s.chatbot.started then ⟨true, true, true⟩
           else s.chatbot)
    ∧ (releaseCameraCompletely e s).led
        = (if s.ai_enabled then some 1 else none)
    ∧ (releaseCameraCompletely e s).face_visible
        = (if s.ai_enabled then true else s.face_visible)
    ∧ (releaseCameraCompletely e s).face_emotion
        = (if s.ai_enabled then "happy" else s.face_emotion)
    ∧ (releaseCameraCompletely e s).animations_started
        = (if s.ai_enabled then true else s.animations_started) := by
  unfold releaseCameraCompletely
  cases h1 : s.rpsGame.started <;> cases h2 : s.rpsGame.stopEvent <;>
    cases h3 : s.presentation.started <;> cases h4 : s.presentation.stopEvent <;>
    cases ha : s.ai_enabled <;> cases hc : s.camera <;>
    simp_all

@[simp] theorem shutdown_stop_flag (e : Env) (s : AppState) :
    (shutdownApp e s).stop_flag = true := by
  unfold shutdownApp
  cases hsf : s.stop_flag <;> cases hc : s.camera <;> simp_all

theorem shutdown_of_flag (e : Env) (s : AppState) (h : s.stop_flag = true) :
    shutdownApp e s = s := by
  unfold shutdownApp
  simp [h]

theorem inv_of_none (s : AppState) (h : s.active_mode = none)
    (h4 : s.presentation.started = true → s.presentation.stopEvent = true) :
    Inv s := by
  refine ⟨fun _ => h, ?_, ?_, h4⟩ <;> simp [h]

theorem ensure_ok_init (e : Env) (s : AppState)
    (h : (ensureCamera e s).2 = true) :
    (ensureCamera e s).1.camera_initialized = true := by
  rw [ensureCamera_snd] at h
  rw [ensureCamera_caminit]
  rcases hci : s.camera_initialized <;> simp_all

theorem pres_coherent_after_stopAll (s : AppState)
    (hD : s.presentation.started = true → s.presentation.stopEvent = true) :
    (stopAllCameraModes s).presentation.started = true →
      (stopAllCameraModes s).presentation.stopEvent = true := by
  intro hp
  rcases hcnd : (s.presentation.started && s.presentation.stopEvent) with _ | _ <;>
    simp_all

theorem inv_post_ensure (e : Env) (s : AppState)
    (hD : s.presentation.started = true → s.presentation.stopEvent = true) :
    Inv ((ensureCamera e (stopAllCameraModes s)).1) := by
  apply inv_of_none
  · simp
  · intro hp
    simp only [ensureCamera_rest] at hp ⊢
    exact pres_coherent_after_stopAll s hD hp

theorem inv_startColorMode (c : String) (e : Env) (s : AppState) (h : Inv s) :
    Inv (startColorMode c e s) := by
  obtain ⟨hA, hB, hC, hD⟩ := h
  unfold startColorMode
  split
  · exact ⟨hA, hB, hC, hD⟩
  rename_i h1
  split
  rename_i h2
  · simp only [Bool.or_eq_true, not_or, Bool.not_eq_true] at h1
    obtain ⟨hai, hpres⟩ := h1
    dsimp only
    split
    · exact inv_post_ensure e s hD
    rename_i hok
    have hok2 : (ensureCamera e (stopAllCameraModes s)).2 = true := by
      rcases hx : (ensureCamera e (stopAllCameraModes s)).2
      · rw [hx] at hok; simp at hok
      · rfl
    split
    · split
      · rename_i cam heq
        refine ⟨?_, ?_, ?_, ?_⟩
        · intro hAI
          simp [hai] at hAI
        · intro m hm hmp
          have hinit := ensure_ok_init e (stopAllCameraModes s) hok2
          simp [hai]
          simpa using hinit
        · intro hm
          simp [hai] at hm
        · intro hp
          simp [hai, hpres] at hp
      · exact inv_post_ensure e s hD
    · exact inv_post_ensure e s hD
  · exact ⟨hA, hB, hC, hD⟩

theorem inv_startFaceMode (e : Env) (s : AppState) (h : Inv s) :
    Inv (startFaceMode e s) := by
  obtain ⟨hA, hB, hC, hD⟩ := h
  unfold startFaceMode
  split
  · exact ⟨hA, hB, hC, hD⟩
  rename_i h1
  split
  rename_i h2
  · simp only [Bool.or_eq_true, not_or, Bool.not_eq_true] at h1
    obtain ⟨hai, hpres⟩ := h1
    dsimp only
    split
    · exact inv_post_ensure e s hD
    rename_i hok
    have hok2 : (ensureCamera e (stopAllCameraModes s)).2 = true := by
      rcases hx : (ensureCamera e (stopAllCameraModes s)).2
      · rw [hx] at hok; simp at hok
      · rfl
    split
    · split
      · rename_i cam heq
        refine ⟨?_, ?_, ?_, ?_⟩
        · intro hAI
          simp [hai] at hAI
        · intro m hm hmp
          have hinit := ensure_ok_init e (stopAllCameraModes s) hok2
          simp [hai]
          simpa using hinit
        · intro hm
          simp [hai] at hm
        · intro hp
          simp [hai, hpres] at hp
      · exact inv_post_ensure e s hD
    · exact inv_post_ensure e s hD
  · exact ⟨hA, hB, hC, hD⟩

theorem inv_startGestureMode (e : Env) (s : AppState) (h : Inv s) :
    Inv (startGestureMode e s) := by
  obtain ⟨hA, hB, hC, hD⟩ := h
  unfold startGestureMode
  split
  · exact ⟨hA, hB, hC, hD⟩
  rename_i h1
  split
  rename_i h2
  · simp only [Bool.or_eq_true, not_or, Bool.not_eq_true] at h1
    obtain ⟨hai, hpres⟩ := h1
    dsimp only
    split
    · exact inv_post_ensure e s hD
    rename_i hok
    have hok2 : (ensureCamera e (stopAllCameraModes s)).2 = true := by
      rcases hx : (ensureCamera e (stopAllCameraModes s)).2
      · rw [hx] at hok; simp at hok
      · rfl
    split
    · split
      · rename_i cam heq
        refine ⟨?_, ?_, ?_, ?_⟩
        · intro hAI
          simp [hai] at hAI
        · intro m hm hmp
          have hinit := ensure_ok_init e (stopAllCameraModes s) hok2
          simp [hai]
          simpa using hinit
        · intro hm
          simp [hai] at hm
        · intro hp
          simp [hai, hpres] at hp
      · exact inv_post_ensure e s hD
    · exact inv_post_ensure e s hD
  · exact ⟨hA, hB, hC, hD⟩

theorem inv_startObjectMode (e : Env) (s : AppState) (h : Inv s) :
    Inv (startObjectMode e s) := by
  obtain ⟨hA, hB, hC, hD⟩ := h
  unfold startObjectMode
  split
  · exact ⟨hA, hB, hC, hD⟩
  rename_i h1
  split
  rename_i h2
  · simp only [Bool.or_eq_true, not_or, Bool.not_eq_true] at h1
    obtain ⟨hai, hpres⟩ := h1
    dsimp only
    split
    · exact inv_post_ensure e s hD
    rename_i hok
    have hok2 : (ensureCamera e (stopAllCameraModes s)).2 = true := by
      rcases hx : (ensureCamera e (stopAllCameraModes s)).2
      · rw [hx] at hok; simp at hok
      · rfl
    split
    · exact inv_post_ensure e s hD
    split
    · split
      · rename_i cam heq
        refine ⟨?_, ?_, ?_, ?_⟩
        · intro hAI
          simp [hai] at hAI
        · intro m hm hmp
          have hinit := ensure_ok_init e (stopAllCameraModes s) hok2
          simp [hai]
          simpa using hinit
        · intro hm
          simp [hai] at hm
        · intro hp
          simp [hai, hpres] at hp
      · exact inv_post_ensure e s hD
    · exact inv_post_ensure e s hD
  · exact ⟨hA, hB, hC, hD⟩

theorem inv_startPlateMode (e : Env) (s : AppState) (h : Inv s) :
    Inv (startPlateMode e s) := by
  obtain ⟨hA, hB, hC, hD⟩ := h
  unfold startPlateMode
  split
  · exact ⟨hA, hB, hC, hD⟩
  rename_i h1
  split
  rename_i h2
  · simp only [Bool.or_eq_true, not_or, Bool.not_eq_true] at h1
    obtain ⟨hai, hpres⟩ := h1
    dsimp only
    split
    · exact inv_post_ensure e s hD
    rename_i hok
    have hok2 : (ensureCamera e (stopAllCameraModes s)).2 = true := by
      rcases hx : (ensureCamera e (stopAllCameraModes s)).2
      · rw [hx] at hok; simp at hok
      · rfl
    split
    · split
      · rename_i cam heq
        refine ⟨?_, ?_, ?_, ?_⟩
        · intro hAI
          simp [hai] at hAI
        · intro m hm hmp
          have hinit := ensure_ok_init e (stopAllCameraModes s) hok2
          simp [hai]
          simpa using hinit
        · intro hm
          simp [hai] at hm
        · intro hp
          simp [hai, hpres] at hp
      · exact inv_post_ensure e s hD
    · exact inv_post_ensure e s hD
  · exact ⟨hA, hB, hC, hD⟩

theorem inv_startRpsIfNeeded (e : Env) (s : AppState) (h : Inv s) :
    Inv (startRpsIfNeeded e s) := by
  obtain ⟨hA, hB, hC, hD⟩ := h
  unfold startRpsIfNeeded
  split
  · exact ⟨hA, hB, hC, hD⟩
  rename_i h1
  split
  rename_i h2
  · simp only [Bool.or_eq_true, not_or, Bool.not_eq_true] at h1
    obtain ⟨hai, hpres⟩ := h1
    dsimp only
    split
    · exact inv_post_ensure e s hD
    rename_i hok
    have hok2 : (ensureCamera e (stopAllCameraModes s)).2 = true := by
      rcases hx : (ensureCamera e (stopAllCameraModes s)).2
      · rw [hx] at hok; simp at hok
      · rfl
    have hinit := ensure_ok_init e (stopAllCameraModes s) hok2
    refine ⟨?_, ?_, ?_, ?_⟩
    · intro hAI
      rcases hd : e.detOk <;>
        rcases hcam : (ensureCamera e (stopAllCameraModes s)).1.camera with _ | cam <;>
        simp [hd, hcam, hai] at hAI
    · intro m hm hmp
      rcases hd : e.detOk <;>
        rcases hcam : (ensureCamera e (stopAllCameraModes s)).1.camera with _ | cam <;>
        simp [hd, hcam, hai] <;> simpa using hinit
    · intro hm
      rcases hd : e.detOk <;>
        rcases hcam : (ensureCamera e (stopAllCameraModes s)).1.camera with _ | cam <;>
        simp [hd, hcam] at hm
    · intro hp
      rcases hd : e.detOk <;>
        rcases hcam : (ensureCamera e (stopAllCameraModes s)).1.camera with _ | cam <;>
        simp [hd, hcam, hai, hpres] at hp
  · exact ⟨hA, hB, hC, hD⟩

theorem inv_startPresentationMode (e : Env) (s : AppState) (h : Inv s) :
    Inv (startPresentationMode e s) := by
  obtain ⟨hA, hB, hC, hD⟩ := h
  unfold startPresentationMode
  split
  · exact ⟨hA, hB, hC, hD⟩
  split
  · exact ⟨hA, hB, hC, hD⟩
  rename_i h1 h2
  simp only [Bool.or_eq_true, not_or, Bool.not_eq_true] at h1
  obtain ⟨hai, hrps⟩ := h1
  refine ⟨?_, ?_, ?_, ?_⟩
  · intro hAI
    simp [hai] at hAI
  · intro m hm hmp
    simp at hm
    rw [← hm] at hmp
    simp at hmp
  · intro hm
    simp
  · intro hp
    simp

theorem inv_stopAllCameraModes (s : AppState) (h : Inv s) :
    Inv (stopAllCameraModes s) := by
  obtain ⟨hA, hB, hC, hD⟩ := h
  apply inv_of_none
  · simp
  · exact pres_coherent_after_stopAll s hD

theorem inv_releaseCameraCompletely (e : Env) (s : AppState) (h : Inv s) :
    Inv (releaseCameraCompletely e s) := by
  obtain ⟨hA, hB, hC, hD⟩ := h
  apply inv_of_none
  · simp
  · intro hp
    rcases hcnd : (s.presentation.started && s.presentation.stopEvent) with _ | _ <;>
      simp_all

theorem inv_shutdownApp (e : Env) (s : AppState) (h : Inv s) :
    Inv (shutdownApp e s) := by
  obtain ⟨hA, hB, hC, hD⟩ := h
  unfold shutdownApp
  split
  · exact ⟨hA, hB, hC, hD⟩
  apply inv_of_none
  · rcases hc : s.camera <;> simp [hc]
  · intro hp
    rcases bp1 : s.presentation.started <;> rcases bp2 : s.presentation.stopEvent <;>
      rcases hc : s.camera <;> simp_all

theorem inv_toggle_on_core (e : Env) (s2 : AppState)
    (hmode : s2.active_mode = none
      ∨ (s2.camera.isSome || s2.camera_initialized) = true)
    (hD2 : s2.presentation.started = true → s2.presentation.stopEvent = true) :
    Inv (if (s2.camera.isSome || s2.camera_initialized) = true then
           releaseCameraCompletely e s2
         else startAiComponents s2) := by
  split
  · apply inv_of_none
    · simp
    · intro hp
      rcases hcnd : (s2.presentation.started && s2.presentation.stopEvent) with _ | _ <;>
        simp_all
  · rename_i hbr
    rcases hmode with hm | hm
    · apply inv_of_none
      · simpa using hm
      · intro hp
        simp only [startAi_rest] at hp ⊢
        exact hD2 hp
    · exact absurd hm hbr

theorem inv_toggleAi (e : Env) (s : AppState) (h : Inv s) :
    Inv (toggleAi e s) := by
  obtain ⟨hA, hB, hC, hD⟩ := h
  unfold toggleAi
  rcases ha : s.ai_enabled
  · -- turning AI on
    dsimp only
    split
    case isFalse hcond => simp [ha] at hcond
    case isTrue hcond =>
      apply inv_toggle_on_core
      · rcases am : s.active_mode with _ | m
        · left
          rcases br1 : s.rpsGame.started <;> rcases br2 : s.rpsGame.stopEvent <;>
            rcases bp1 : s.presentation.started <;>
            rcases bp2 : s.presentation.stopEvent <;> simp_all
        · by_cases hmp : m = Mode.presentation
          · subst hmp
            have hbp1 := hC am
            have hbp2 := hD hbp1
            left
            rcases br1 : s.rpsGame.started <;> rcases br2 : s.rpsGame.stopEvent <;>
              simp_all
          · have hci := hB m am hmp
            right
            rcases br1 : s.rpsGame.started <;> rcases br2 : s.rpsGame.stopEvent <;>
              rcases bp1 : s.presentation.started <;>
              rcases bp2 : s.presentation.stopEvent <;> simp_all
      · intro hp
        rcases br1 : s.rpsGame.started <;> rcases br2 : s.rpsGame.stopEvent <;>
          rcases bp1 : s.presentation.started <;>
          rcases bp2 : s.presentation.stopEvent <;> simp_all
  · -- turning AI off
    dsimp only
    split
    case isTrue hcond => simp [ha] at hcond
    case isFalse hcond =>
      refine ⟨?_, ?_, ?_, ?_⟩
      · intro hAI
        simp [ha] at hAI
      · intro m hm hmp
        simp at hm ⊢
        exact hB m hm hmp
      · intro hm
        simp at hm ⊢
        exact hC hm
      · intro hp
        simp at hp ⊢
        exact hD hp

theorem inv_step (o : Op) (e : Env) (s : AppState) (h : Inv s) :
    Inv (step o e s) := by
  cases o with
  | startColor c => exact inv_startColorMode c e s h
  | startFace => exact inv_startFaceMode e s h
  | startGesture => exact inv_startGestureMode e s h
  | startObject => exact inv_startObjectMode e s h
  | startPlate => exact inv_startPlateMode e s h
  | startRps => exact inv_startRpsIfNeeded e s h
  | startPres => exact inv_startPresentationMode e s h
  | toggleAiOp => exact inv_toggleAi e s h
  | stopAllOp => exact inv_stopAllCameraModes s h
  | releaseCameraOp => exact inv_releaseCameraCompletely e s h
  | exitApp => exact inv_shutdownApp e s h

theorem inv_init : Inv initState := by
  refine ⟨?_, ?_, ?_, ?_⟩ <;> intros <;> simp_all [initState]

theorem inv_run (l : List (Op × Env)) (s : AppState) (h : Inv s) :
    Inv (run s l) := by
  induction l generalizing s with
  | nil => exact h
  | cons p rest ih =>
    obtain ⟨o, e⟩ := p
    exact ih (step o e s) (inv_step o e s h)

theorem wInv_tt : wInv ⟨true, true, true⟩ := by simp [wInv]

theorem wInv_ff : wInv ⟨false, false, false⟩ := by simp [wInv]

theorem wInv_ite (c : Prop) [Decidable c] (a b : WorkerRec)
    (ha : wInv a) (hb : wInv b) : wInv (if c then a else b) := by
  split <;> assumption

theorem wInvAll_stopAll (s : AppState) (h : wInvAll s) :
    wInvAll (stopAllCameraModes s) := by
  obtain ⟨h1, h2, h3⟩ := h
  refine ⟨?_, ?_, ?_⟩ <;> simp only [stopAll_fields]
  · exact h1
  · exact wInv_ite _ _ _ wInv_ff h2
  · exact wInv_ite _ _ _ wInv_ff h3

theorem wInvAll_postEnsure (e : Env) (s : AppState) (h : wInvAll s) :
    wInvAll ((ensureCamera e (stopAllCameraModes s)).1) := by
  have h' := wInvAll_stopAll s h
  obtain ⟨h1, h2, h3⟩ := h'
  exact ⟨by simpa using h1, by simpa using h2, by simpa using h3⟩

/-! Claim theorems. -/

/-- C1: for every sequence of coordinator operations (the seven
mode-request operations, AI toggles, and the remaining entry points) run
from the initial state, at most one of the modes color / face / gesture /
object / plate / rps / presentation is active at any observed instant,
and no such mode is active while ai_enabled is true. -/
theorem atMostOneActiveModeAndAiExclusion (l : List (Op × Env)) (m m' : Mode) :
    (modeActive (run initState l) m = true →
      modeActive (run initState l) m' = true → m = m')
    ∧ ((run initState l).ai_enabled = true →
      modeActive (run initState l) m = false) := by
  have hinv := inv_run l initState inv_init
  constructor
  · intro h1 h2
    unfold modeActive at h1 h2
    simp only [decide_eq_true_eq] at h1 h2
    have := h1.symm.trans h2
    exact Option.some.inj this
  · intro hai
    have hnone := hinv.1 hai
    unfold modeActive
    simp [hnone]

/-- Witness for C1: after starting face mode the active mode is
(uniquely) Face, and after toggling AI on from idle no mode is active. -/
theorem atMostOneActiveModeAndAiExclusion_witness :
    Mode.face = Mode.face
    ∧ modeActive (run initState [(Op.toggleAiOp, envOk)]) Mode.rps = false :=
  ⟨(atMostOneActiveModeAndAiExclusion [(Op.startFace, envOk)] Mode.face Mode.face).1
      (by decide) (by decide),
   (atMostOneActiveModeAndAiExclusion [(Op.toggleAiOp, envOk)] Mode.rps Mode.rps).2
      (by decide)⟩

/-- C2: if camera acquisition fails during a colour-mode request that is
actually admitted (AI off, presentation not running, not the idempotent
same-colour no-op, camera not already initialized), the requested mode is
not entered and the coordinator ends Idle: active_mode and active_color
are None. -/
theorem cameraFailureFallsBackToIdle (c : String) (e : Env) (s : AppState)
    (hai : s.ai_enabled = false) (hpres : s.presentation.started = false)
    (hdiff : ¬(s.active_mode = some Mode.color ∧ s.active_color = some c))
    (hinit : s.camera_initialized = false) (hcam : e.camOk = false) :
    (startColorMode c e s).active_mode = none
    ∧ (startColorMode c e s).active_color = none := by
  have hguard : s.active_mode ≠ some Mode.color ∨ s.active_color ≠ some c := by
    tauto
  have h2 : (ensureCamera e (stopAllCameraModes s)).2 = false := by
    rw [ensureCamera_snd]; simp [hinit, hcam]
  constructor <;> simp [startColorMode, hai, hpres, hguard, h2]

/-- Witness for C2: a red colour-mode request from the idle initial state
with a failing camera ends with no active mode. -/
theorem cameraFailureFallsBackToIdle_witness :
    (startColorMode "red" envNoCam initState).active_mode = none
    ∧ (startColorMode "red" envNoCam initState).active_color = none :=
  cameraFailureFallsBackToIdle "red" envNoCam initState rfl rfl (by decide)
    rfl rfl

/-- C3: every one of the seven mode-request operations issued while
ai_enabled is true is rejected by the admission check (the branch that
prints the refusal diagnostic) and leaves the entire coordinator state —
active_mode, active_color, ai_enabled, worker records and all — exactly
unchanged. -/
theorem aiRefusalNoStateChange (o : Op) (e : Env) (s : AppState)
    (hreq : isModeRequest o = true) (hai : s.ai_enabled = true) :
    step o e s = s := by
  cases o <;>
    simp_all [isModeRequest, step, startColorMode, startFaceMode,
      startGestureMode, startObjectMode, startPlateMode, startRpsIfNeeded,
      startPresentationMode]

/-- Witness for C3: an RPS request while AI is enabled changes nothing. -/
theorem aiRefusalNoStateChange_witness :
    isModeRequest Op.startRps = true
    ∧ stAiOn.ai_enabled = true
    ∧ step Op.startRps envOk stAiOn = stAiOn :=
  ⟨rfl, rfl, aiRefusalNoStateChange Op.startRps envOk stAiOn rfl rfl⟩

/-- C4: requesting the mode that is already active with identical
parameters is a no-op: a colour request for the colour already being
tracked, or a face request while face mode is active, returns the state
unchanged (no detector stop/restart, no coordinator state change). -/
theorem repeatedRequestIsNoOp (c : String) (e : Env) (s : AppState) :
    (s.active_mode = some Mode.color → s.active_color = some c →
      startColorMode c e s = s)
    ∧ (s.active_mode = some Mode.face → startFaceMode e s = s) := by
  constructor
  · intro h1 h2
    unfold startColorMode
    split
    · rfl
    · split
      · rename_i hg
        rw [h1, h2] at hg
        simp at hg
      · rfl
  · intro h1
    unfold startFaceMode
    split
    · rfl
    · split
      · rename_i hg
        rw [h1] at hg
        simp at hg
      · rfl

/-- Witness for C4: repeating the red colour request in red colour mode,
and the face request in face mode, changes nothing. -/
theorem repeatedRequestIsNoOp_witness :
    startColorMode "red" envOk stColorRed = stColorRed
    ∧ startFaceMode envOk stFaceOn = stFaceOn :=
  ⟨(repeatedRequestIsNoOp "red" envOk stColorRed).1 rfl rfl,
   (repeatedRequestIsNoOp "red" envOk stFaceOn).2 rfl⟩

/-- C5: _stop_all_camera_modes is idempotent — a second call yields
exactly the same state — and the state it produces is Idle: no active
mode or colour, every camera detector stopped, motors stopped, LEDs
off. -/
theorem stopAllCameraModesIdempotent (s : AppState) :
    stopAllCameraModes (stopAllCameraModes s) = stopAllCameraModes s
    ∧ (stopAllCameraModes s).active_mode = none
    ∧ (stopAllCameraModes s).active_color = none
    ∧ camDetectorsOff (stopAllCameraModes s) = true
    ∧ (stopAllCameraModes s).motors_on = false
    ∧ (stopAllCameraModes s).led = none := by
  refine ⟨?_, by simp, by simp, ?_, by simp, by simp⟩
  · ext <;>
      rcases h1 : s.rpsGame.started <;> rcases h2 : s.rpsGame.stopEvent <;>
      rcases h3 : s.presentation.started <;>
      rcases h4 : s.presentation.stopEvent <;>
      rcases ha : s.ai_enabled <;> rcases hc : s.camera <;> simp_all
  · unfold camDetectorsOff
    rcases hc : s.camera <;> simp [hc, stopAllDetectors]

/-- C6: in the IR poll loop with the debug bypass off, a valid code
(non-zero, below 0xFF) equal to the previously dispatched code and
arriving strictly inside the debounce window is dropped without updating
the debounce state; the same code arriving at or after the window, and
any valid code different from the last one, is dispatched and updates
the debounce state. -/
theorem irDebounceBehavior (st : IrState) (code : Nat) (now : ℚ)
    (hnz : code ≠ 0) (hlt : code < 0xFF) :
    (code = st.lastCode → now - st.lastTime < IR_DEBOUNCE_SEC →
      irPollStep false st code now = (st, false))
    ∧ (code = st.lastCode → IR_DEBOUNCE_SEC ≤ now - st.lastTime →
      irPollStep false st code now = (⟨code, now⟩, true))
    ∧ (code ≠ st.lastCode →
      irPollStep false st code now = (⟨code, now⟩, true)) := by
  refine ⟨?_, ?_, ?_⟩
  · intro h1 h2
    subst h1
    simp [irPollStep, hnz, hlt, h2]
  · intro h1 h2
    subst h1
    simp [irPollStep, hnz, hlt, not_lt.2 h2]
  · intro h1
    simp [irPollStep, hnz, hlt, h1]

/-- Witness for C6: with the default 0.4 s window, code 1 repeated after
0.2 s is dropped, repeated after exactly 0.4 s is dispatched, and a
different code 4 after 0.2 s is dispatched. -/
theorem irDebounceBehavior_witness :
    irPollStep false ⟨1, 0⟩ 1 (1 / 5) = (⟨1, 0⟩, false)
    ∧ irPollStep false ⟨1, 0⟩ 1 (2 / 5) = (⟨1, 2 / 5⟩, true)
    ∧ irPollStep false ⟨1, 0⟩ 4 (1 / 5) = (⟨4, 1 / 5⟩, true) :=
  ⟨(irDebounceBehavior ⟨1, 0⟩ 1 (1 / 5) (by norm_num) (by norm_num)).1 rfl
      (by norm_num [IR_DEBOUNCE_SEC]),
   (irDebounceBehavior ⟨1, 0⟩ 1 (2 / 5) (by norm_num) (by norm_num)).2.1 rfl
      (by norm_num [IR_DEBOUNCE_SEC]),
   (irDebounceBehavior ⟨1, 0⟩ 4 (1 / 5) (by norm_num) (by norm_num)).2.2
      (by norm_num)⟩

/-- C7: the dispatch table does map IR_EXIT_APP (0x00) to the
exit-application action, but the poll loop's validity filter treats 0 as
the no-code sentinel, so a register read of 0x00 is never dispatched (for
any debug setting, debounce state or time) and the graceful shutdown can
never be triggered by that code. -/
theorem exitAppCodeNeverDispatched :
    irActionOf IR_EXIT_APP = IrAction.exitApplication
    ∧ ∀ (debug : Bool) (st : IrState) (now : ℚ),
        irPollStep debug st IR_EXIT_APP now = (st, false) := by
  constructor
  · decide
  · intro debug st now
    simp [irPollStep, IR_EXIT_APP]

/-- C8 counterexample: code 0x20 is unmapped and IR_DEBUG is off, yet
_handle_ir_code still triggers a beep — trigger_beep() stands after the
whole if/elif/else chain and runs unconditionally. -/
theorem unmappedBeepCounterexample :
    irActionOf 0x20 = IrAction.unmapped
    ∧ (handleIrCode false 0x20).beepTriggered = true := by
  decide

/-- C8 (amended): every code passed to _handle_ir_code triggers a beep,
mapped or unmapped and whatever the debug setting; the unmapped-code
diagnostic, in contrast, is printed exactly for unmapped codes with debug
logging on. -/
theorem beepOnEveryDispatchedCode (debug : Bool) (code : Nat) :
    (handleIrCode debug code).beepTriggered = true
    ∧ (handleIrCode debug code).loggedUnmapped
        = (decide (irActionOf code = IrAction.unmapped) && debug) := by
  refine ⟨rfl, ?_⟩
  unfold handleIrCode
  dsimp only
  split <;> simp_all

/-- C9: for each of the three worker records, the invariant
"startedFlag = true iff the task reference is non-null" is preserved by
every start() and stop() operation; each stop() with the record fully
populated clears flag, task and signal unconditionally; and no stop()
result depends on whether the bounded 2-second join succeeded. -/
theorem workerRecordInvariantMaintained (e : Env) (s : AppState) (j j' : Bool) :
    (wInvAll s →
      wInvAll (startChatbotIfNeeded s)
      ∧ wInvAll (stopChatbotIfRunning j s)
      ∧ wInvAll (startRpsIfNeeded e s)
      ∧ wInvAll (stopRpsIfRunning j s)
      ∧ wInvAll (startPresentationMode e s)
      ∧ wInvAll (stopPresentationIfRunning j s))
    ∧ (s.chatbot.started = true → s.chatbot.stopEvent = true →
        (stopChatbotIfRunning j s).chatbot = ⟨false, false, false⟩)
    ∧ (s.rpsGame.started = true → s.rpsGame.stopEvent = true →
        (stopRpsIfRunning j s).rpsGame = ⟨false, false, false⟩)
    ∧ (s.presentation.started = true → s.presentation.stopEvent = true →
        (stopPresentationIfRunning j s).presentation = ⟨false, false, false⟩)
    ∧ stopChatbotIfRunning j s = stopChatbotIfRunning j' s
    ∧ stopRpsIfRunning j s = stopRpsIfRunning j' s
    ∧ stopPresentationIfRunning j s = stopPresentationIfRunning j' s := by
  refine ⟨?_, ?_, ?_, ?_, rfl, rfl, rfl⟩
  · intro h
    obtain ⟨h1, h2, h3⟩ := h
    refine ⟨⟨?_, ?_, ?_⟩, ⟨?_, ?_, ?_⟩, ?_, ⟨?_, ?_, ?_⟩, ?_, ⟨?_, ?_, ?_⟩⟩
    · simp only [startChatbot_chatbot]
      exact wInv_ite _ _ _ wInv_tt h1
    · simp only [startChatbot_rest]; exact h2
    · simp only [startChatbot_rest]; exact h3
    · simp only [stopChatbot_chatbot]
      exact wInv_ite _ _ _ wInv_ff h1
    · simp only [stopChatbot_rest]; exact h2
    · simp only [stopChatbot_rest]; exact h3
    · -- startRpsIfNeeded
      unfold startRpsIfNeeded
      split
      · exact ⟨h1, h2, h3⟩
      · split
        · dsimp only
          split
          · exact wInvAll_postEnsure e s ⟨h1, h2, h3⟩
          · have hpost := wInvAll_postEnsure e s ⟨h1, h2, h3⟩
            rcases hd : e.detOk <;>
              rcases hcam : (ensureCamera e (stopAllCameraModes s)).1.camera
                with _ | cam <;>
              refine ⟨?_, ?_, ?_⟩ <;> (try simp [hd, hcam]) <;>
              first
              | exact h1
              | exact wInv_tt
              | exact wInv_ite _ _ _ wInv_ff h3
        · exact ⟨h1, h2, h3⟩
    · simp only [stopRps_rest]; exact h1
    · simp only [stopRps_rpsGame]
      exact wInv_ite _ _ _ wInv_ff h2
    · simp only [stopRps_rest]; exact h3
    · -- startPresentationMode
      unfold startPresentationMode
      split
      · exact ⟨h1, h2, h3⟩
      · split
        · exact ⟨h1, h2, h3⟩
        · have hstop := wInvAll_stopAll s ⟨h1, h2, h3⟩
          refine ⟨?_, ?_, ?_⟩ <;> (try simp) <;>
            first
            | exact h1
            | exact wInv_tt
            | exact wInv_ite _ _ _ wInv_ff h2
    · simp only [stopPres_rest]; exact h1
    · simp only [stopPres_rest]; exact h2
    · simp only [stopPres_presentation]
      exact wInv_ite _ _ _ wInv_ff h3
  · intro ha hb
    simp [stopChatbotIfRunning, ha, hb]
  · intro ha hb
    simp [stopRpsIfRunning, ha, hb]
  · intro ha hb
    simp [stopPresentationIfRunning, ha, hb]

/-- Witness for C9: the invariant holds after starting RPS from the idle
initial state, and each stop on fully-populated worker records clears
them. -/
theorem workerRecordInvariantMaintained_witness :
    wInvAll (startRpsIfNeeded envOk initState)
    ∧ (stopChatbotIfRunning true stWorkersOn).chatbot = ⟨false, false, false⟩
    ∧ (stopRpsIfRunning true stWorkersOn).rpsGame = ⟨false, false, false⟩
    ∧ (stopPresentationIfRunning true stWorkersOn).presentation
        = ⟨false, false, false⟩
    ∧ stopRpsIfRunning true stWorkersOn = stopRpsIfRunning false stWorkersOn :=
  ⟨((workerRecordInvariantMaintained envOk initState true false).1
      (by refine ⟨?_, ?_, ?_⟩ <;> simp [wInv, initState])).2.2.1,
   (workerRecordInvariantMaintained envOk stWorkersOn true false).2.1 rfl rfl,
   (workerRecordInvariantMaintained envOk stWorkersOn true false).2.2.1 rfl rfl,
   (workerRecordInvariantMaintained envOk stWorkersOn true false).2.2.2.1
      rfl rfl,
   (workerRecordInvariantMaintained envOk stWorkersOn true false).2.2.2.2.2.1⟩

/-- C10: shutdown is idempotent at the public interface — once the stop
flag is set, a further call returns immediately with the state exactly
unchanged, every run of shutdown leaves the flag set, and two consecutive
shutdowns produce the same state as one. -/
theorem shutdownIdempotent (e f : Env) (s : AppState) :
    (s.stop_flag = true → shutdownApp e s = s)
    ∧ (shutdownApp e s).stop_flag = true
    ∧ shutdownApp f (shutdownApp e s) = shutdownApp e s := by
  refine ⟨shutdown_of_flag e s, shutdown_stop_flag e s, ?_⟩
  exact shutdown_of_flag f _ (shutdown_stop_flag e s)

/-- Witness for C10: a shutdown on a state whose flag is already set is
the identity, and a double shutdown from the initial state equals a
single one. -/
theorem shutdownIdempotent_witness :
    shutdownApp envOk stStopSet = stStopSet
    ∧ shutdownApp envNoCam (shutdownApp envOk initState)
        = shutdownApp envOk initState :=
  ⟨(shutdownIdempotent envOk envOk stStopSet).1 rfl,
   (shutdownIdempotent envOk envNoCam initState).2.2⟩

end Marich
